import Mathlib

/-!
Verification development for the Aadhaar Pulse dashboard (`src/app.py`).

The calculation layer of the dashboard is embedded shallowly: the two pandas
tables become Lean lists of records, numeric cells become rationals,
month period keys become naturals, and each single-pass transformation of
the script becomes a Lean function. Randomness (the Laplace sample of
`apply_dp_noise`) is passed as an explicit argument.
-/

namespace AadhaarPulse

/-- A row of the monthly intelligence table (`aadhaar_phase2_intelligence_dataset.csv`).
Columns used by `app.py`: state, district, month, update_total,
service_stress_score, stress_level, maturity_category, confidence_score,
plus the derived data_quality_flag column. -/
structure MonthlyRecord where
  state : String
  district : String
  month : Nat
  update_total : ℚ
  service_stress_score : ℚ
  stress_level : String
  maturity_category : String
  confidence_score : ℚ
  data_quality_flag : Bool
deriving DecidableEq, Repr

/-- A row of the forecast table (`aadhaar_phase3_forecast.csv`). -/
structure ForecastRecord where
  state : String
  district : String
  forecast_month : Nat
  predicted_update_total : ℚ
deriving DecidableEq, Repr

/-! ## Data quality check (app.py lines 53-59) -/

/-- The boolean mask of app.py line 54-57:
`(district.lower() == "hyderabad") & (state.lower() != "telangana")`. -/
def dq_mask (r : MonthlyRecord) : Bool :=
  (r.district.toLower == "hyderabad") && !(r.state.toLower == "telangana")

/-- Lines 53 and 58: the flag column is initialised to False and set to True
exactly on the masked rows; all other columns are untouched. -/
def set_dq_flag (r : MonthlyRecord) : MonthlyRecord :=
  { r with data_quality_flag := dq_mask r }

/-- The whole-table flag computation: every row gets its flag recomputed. -/
def flag_table (tbl : List MonthlyRecord) : List MonthlyRecord :=
  tbl.map set_dq_flag

/-- Line 59: `dq_count = monthly["data_quality_flag"].sum()`. -/
def dq_count (tbl : List MonthlyRecord) : Nat :=
  (flag_table tbl).countP (·.data_quality_flag)

/-! ## Differential-privacy noise (app.py lines 29-31)

`np.random.laplace(0, 1/epsilon)` draws one sample; the sample is modelled
as an explicit `noise` argument, quantified over all reals the draw could
produce. -/

/-- Function `apply_dp_noise`: add the drawn Laplace noise and clamp at zero
(`max(0, value + noise)`). -/
def apply_dp_noise (value noise : ℚ) : ℚ :=
  max 0 (value + noise)

/-! ## Recommendation engine (app.py lines 36-40) -/

/-- Function `recommend_resources`: staff, devices and mobile units from fixed-divisor
ceilings (`int(np.ceil(predicted_updates / d))` for d = 400, 250, 1000). -/
def recommend_resources (predicted_updates : ℚ) : ℤ × ℤ × ℤ :=
  (⌈predicted_updates / 400⌉, ⌈predicted_updates / 250⌉, ⌈predicted_updates / 1000⌉)

/-! ## Scenario simulation (app.py lines 192-196) -/

/-- Line 192: `capacity_gain = extra_staff*400 + extra_devices*250 + extra_units*1000`.
The three slider values are non-negative integers. -/
def capacity_gain (extra_staff extra_devices extra_units : Nat) : ℚ :=
  extra_staff * 400 + extra_devices * 250 + extra_units * 1000

/-- Line 195: `new_load = max(predicted_value - capacity_gain, 0)`. -/
def new_load (predicted_value : ℚ) (extra_staff extra_devices extra_units : Nat) : ℚ :=
  max (predicted_value - capacity_gain extra_staff extra_devices extra_units) 0

/-! ## Column maximum (pandas `.max()` over the month column, app.py line 203)

`max()` of an empty column is undefined (NaN); modelled as `Option`. -/

/-- Maximum of a column of naturals; `none` on an empty column. -/
def col_max : List Nat → Option Nat
  | [] => none
  | m :: ms =>
    match col_max ms with
    | none => some m
    | some x => some (max m x)

/-! ## Top-risk ranking (app.py lines 203-205) -/

/-- Descending order on `service_stress_score` (`ascending=False` of line 205). -/
def stressDescRel (a b : MonthlyRecord) : Prop :=
  b.service_stress_score ≤ a.service_stress_score

instance : DecidableRel stressDescRel := fun a b =>
  inferInstanceAs (Decidable (b.service_stress_score ≤ a.service_stress_score))

instance : IsTotal MonthlyRecord stressDescRel :=
  ⟨fun a b => le_total b.service_stress_score a.service_stress_score⟩

instance : IsTrans MonthlyRecord stressDescRel :=
  ⟨fun _ _ _ h1 h2 => le_trans h2 h1⟩

/-- Line 204: `latest_data = monthly[monthly["month"] == latest_month]` where
`latest_month = monthly["month"].max()` (line 203). An empty table has no
maximum and matches nothing. -/
def latest_data (tbl : List MonthlyRecord) : List MonthlyRecord :=
  match col_max (tbl.map (·.month)) with
  | none => []
  | some m => tbl.filter (fun r => r.month == m)

/-- Line 205: sort the rows of the latest month by stress score descending and
take the first 20. -/
def top_stress (tbl : List MonthlyRecord) : List MonthlyRecord :=
  (List.insertionSort stressDescRel (latest_data tbl)).take 20

/-! ## Location selector (app.py lines 96-107) -/

/-- Ascending order on `month` (`sort_values("month")` of line 105). -/
def monthAscRel (a b : MonthlyRecord) : Prop :=
  a.month ≤ b.month

instance : DecidableRel monthAscRel := fun a b =>
  inferInstanceAs (Decidable (a.month ≤ b.month))

instance : IsTotal MonthlyRecord monthAscRel :=
  ⟨fun a b => le_total a.month b.month⟩

instance : IsTrans MonthlyRecord monthAscRel :=
  ⟨fun _ _ _ h1 h2 => le_trans h1 h2⟩

/-- Line 96: `states = sorted(monthly["state"].unique())`. -/
def states (tbl : List MonthlyRecord) : List String :=
  List.insertionSort (· ≤ ·) ((tbl.map (·.state)).dedup)

/-- Line 99: `districts = sorted(monthly[monthly["state"] == state_selected]["district"].unique())`. -/
def districts (tbl : List MonthlyRecord) (state_selected : String) : List String :=
  List.insertionSort (· ≤ ·)
    (((tbl.filter (fun r => r.state == state_selected)).map (·.district)).dedup)

/-- Lines 102-105: the rows of the selected state and district, sorted
ascending by month. -/
def district_data (tbl : List MonthlyRecord) (state_selected district_selected : String) :
    List MonthlyRecord :=
  List.insertionSort monthAscRel
    (tbl.filter (fun r => r.state == state_selected && r.district == district_selected))

/-- Line 107: `latest = district_data.iloc[-1]`. `iloc[-1]` raises on an
empty frame; `none` models that raise. -/
def latest (tbl : List MonthlyRecord) (state_selected district_selected : String) :
    Option MonthlyRecord :=
  (district_data tbl state_selected district_selected).getLast?

/-! ## Forecast handling (app.py lines 151-196) -/

/-- Lines 151-154: the forecast rows matching the selected state and district
(kept in file order; the source does not sort them). -/
def forecast_data (fdf : List ForecastRecord) (state_selected district_selected : String) :
    List ForecastRecord :=
  fdf.filter (fun r => r.state == state_selected && r.district == district_selected)

/-- Lines 156-166: `predicted_value` starts as `None` and becomes
`forecast_data.iloc[-1]["predicted_update_total"]` when matching rows exist. -/
def predicted_value (fdf : List ForecastRecord) (state_selected district_selected : String) :
    Option ℚ :=
  (forecast_data fdf state_selected district_selected).getLast?.map (·.predicted_update_total)

/-- Lines 158/167-168: the "No forecast data available." placeholder is shown
exactly when the filtered forecast is empty. -/
def forecast_placeholder (fdf : List ForecastRecord) (state_selected district_selected : String) :
    Bool :=
  (forecast_data fdf state_selected district_selected).isEmpty

/-- Lines 173-174: the recommendation panel runs iff
`predicted_value is not None`. -/
def recommendation_output (fdf : List ForecastRecord) (state_selected district_selected : String) :
    Option (ℤ × ℤ × ℤ) :=
  (predicted_value fdf state_selected district_selected).map recommend_resources

/-- Lines 194-196: the what-if result is shown iff `predicted_value` is
truthy — Python treats both `None` and `0` as falsy here. -/
def scenario_output (fdf : List ForecastRecord) (state_selected district_selected : String)
    (extra_staff extra_devices extra_units : Nat) : Option ℚ :=
  match predicted_value fdf state_selected district_selected with
  | none => none
  | some p =>
    if p = 0 then none
    else some (new_load p extra_staff extra_devices extra_units)

/-! ## Whole-page summary (determinism of the render pipeline) -/

/-- The two deterministic whole-table outputs of one render: the flagged-row
count (line 59) and the top-20 ranking (line 205), computed from the loaded
table after the flag pass. -/
def dashboard_summary (tbl : List MonthlyRecord) : Nat × List MonthlyRecord :=
  (dq_count tbl, top_stress (flag_table tbl))

/-! ## Concrete sample data (used to instantiate the theorems) -/

/-- A small concrete monthly table: two months of one Telangana district and
one mis-coded Hyderabad row under Andhra Pradesh. -/
def exTbl : List MonthlyRecord :=
  [⟨"Telangana", "Hyderabad", 3, 1200, 87, "High", "Mature", 9/10, false⟩,
   ⟨"Telangana", "Hyderabad", 1, 900, 55, "Medium", "Mature", 8/10, false⟩,
   ⟨"Andhra Pradesh", "Hyderabad", 3, 100, 12, "Low", "Emerging", 5/10, false⟩]

/-- A concrete forecast row for the sample district. -/
def exRec : ForecastRecord :=
  ⟨"Telangana", "Hyderabad", 4, 500⟩

/-- A one-row forecast table with a positive prediction. -/
def exFdf : List ForecastRecord :=
  [exRec]

/-- A one-row forecast table whose latest prediction is zero. -/
def exFdf0 : List ForecastRecord :=
  [⟨"Telangana", "Hyderabad", 4, 0⟩]

end AadhaarPulse

namespace AadhaarPulse

/-! ## Helper lemmas -/

/-- The maximum `col_max` is `none` exactly on the empty column. -/
theorem col_max_eq_none {l : List Nat} : col_max l = none ↔ l = [] := by
  cases l with
  | nil => simp [col_max]
  | cons a t =>
    simp only [col_max]
    cases col_max t <;> simp

/-- Any column entry is bounded by `col_max`. -/
theorem le_col_max {l : List Nat} {m : Nat} (h : col_max l = some m) :
    ∀ x ∈ l, x ≤ m := by
  induction l generalizing m with
  | nil => simp
  | cons a t ih =>
    intro x hx
    rcases List.mem_cons.mp hx with rfl | hx
    · cases ht : col_max t with
      | none => simp only [col_max, ht, Option.some.injEq] at h; omega
      | some y => simp only [col_max, ht, Option.some.injEq] at h; omega
    · cases ht : col_max t with
      | none =>
        rw [col_max_eq_none.mp ht] at hx
        simp at hx
      | some y =>
        have hxy := ih ht x hx
        simp only [col_max, ht, Option.some.injEq] at h
        omega

/-- Unfolding `latest_data` when the table has a maximum month. -/
theorem latest_data_eq_filter {tbl : List MonthlyRecord} {m : Nat}
    (hm : col_max (tbl.map (·.month)) = some m) :
    latest_data tbl = tbl.filter (fun r => r.month == m) := by
  unfold latest_data
  rw [hm]

/-- Unfolding `latest_data` on a table with no maximum month. -/
theorem latest_data_eq_nil {tbl : List MonthlyRecord}
    (hm : col_max (tbl.map (·.month)) = none) :
    latest_data tbl = [] := by
  unfold latest_data
  rw [hm]

/-! ## Theorems -/

/-- C1: for every record in the monthly table, the computed
`data_quality_flag` is true iff the lowercase district is "hyderabad" and the
lowercase state is not "telangana", and the flag computation changes no other
column of the record. -/
theorem dq_flag_correct (tbl : List MonthlyRecord) :
    flag_table tbl = tbl.map set_dq_flag ∧
    ∀ r : MonthlyRecord,
      ((set_dq_flag r).data_quality_flag = true ↔
        (r.district.toLower = "hyderabad" ∧ ¬ r.state.toLower = "telangana")) ∧
      (set_dq_flag r).state = r.state ∧
      (set_dq_flag r).district = r.district ∧
      (set_dq_flag r).month = r.month ∧
      (set_dq_flag r).update_total = r.update_total ∧
      (set_dq_flag r).service_stress_score = r.service_stress_score ∧
      (set_dq_flag r).stress_level = r.stress_level ∧
      (set_dq_flag r).maturity_category = r.maturity_category ∧
      (set_dq_flag r).confidence_score = r.confidence_score := by
  refine ⟨rfl, fun r => ⟨?_, rfl, rfl, rfl, rfl, rfl, rfl, rfl, rfl⟩⟩
  simp [set_dq_flag, dq_mask]

/-- C2: for every non-negative `predicted_updates`, `recommend_resources`
returns the triple of ceilings `(⌈p/400⌉, ⌈p/250⌉, ⌈p/1000⌉)`, each component
is non-negative, and the three quoted examples hold. -/
theorem recommend_resources_spec (p : ℚ) (hp : 0 ≤ p) :
    recommend_resources p = (⌈p / 400⌉, ⌈p / 250⌉, ⌈p / 1000⌉) ∧
    0 ≤ (recommend_resources p).1 ∧
    0 ≤ (recommend_resources p).2.1 ∧
    0 ≤ (recommend_resources p).2.2 ∧
    recommend_resources 0 = (0, 0, 0) ∧
    recommend_resources 400 = (1, 2, 1) ∧
    recommend_resources 1000 = (3, 4, 1) := by
  refine ⟨rfl, ?_, ?_, ?_, ?_, ?_, ?_⟩
  · exact Int.ceil_nonneg (by positivity)
  · exact Int.ceil_nonneg (by positivity)
  · exact Int.ceil_nonneg (by positivity)
  all_goals
    simp only [recommend_resources, Prod.mk.injEq]
    norm_num [Int.ceil_eq_iff]

/-- Witness for C2 at `predicted_updates = 400`. -/
theorem recommend_resources_spec_witness :
    recommend_resources 400 = (⌈(400 : ℚ) / 400⌉, ⌈(400 : ℚ) / 250⌉, ⌈(400 : ℚ) / 1000⌉) ∧
    0 ≤ (recommend_resources 400).1 ∧
    0 ≤ (recommend_resources 400).2.1 ∧
    0 ≤ (recommend_resources 400).2.2 ∧
    recommend_resources 0 = (0, 0, 0) ∧
    recommend_resources 400 = (1, 2, 1) ∧
    recommend_resources 1000 = (3, 4, 1) :=
  recommend_resources_spec 400 (by norm_num)

/-- C3: for every predicted demand and all slider values, the what-if
simulator computes the capacity gain `staff*400 + devices*250 + units*1000`
and returns `max(predicted - gain, 0)`; the two quoted examples hold. -/
theorem scenario_simulator_spec (p : ℚ) (staff devices units : Nat) :
    capacity_gain staff devices units =
      (staff : ℚ) * 400 + (devices : ℚ) * 250 + (units : ℚ) * 1000 ∧
    new_load p staff devices units =
      max (p - ((staff : ℚ) * 400 + (devices : ℚ) * 250 + (units : ℚ) * 1000)) 0 ∧
    new_load 1000 1 0 0 = 600 ∧
    new_load 100 1 0 0 = 0 := by
  refine ⟨rfl, rfl, ?_, ?_⟩ <;> norm_num [new_load, capacity_gain]

/-- C4: the top-risk ranking returns at most 20 rows, the month of every
returned row equals the maximum month value of the whole table, and the result is
sorted in descending order of `service_stress_score`. -/
theorem top_stress_spec (tbl : List MonthlyRecord) :
    (top_stress tbl).length ≤ 20 ∧
    (∀ r ∈ top_stress tbl, col_max (tbl.map (·.month)) = some r.month) ∧
    (top_stress tbl).Sorted (fun a b => b.service_stress_score ≤ a.service_stress_score) := by
  refine ⟨List.length_take_le _ _, ?_, ?_⟩
  · intro r hr
    have hmem : r ∈ List.insertionSort stressDescRel (latest_data tbl) :=
      List.mem_of_mem_take hr
    have hmem2 : r ∈ latest_data tbl := (List.mem_insertionSort _).mp hmem
    cases hm : col_max (tbl.map (·.month)) with
    | none => rw [latest_data_eq_nil hm] at hmem2; simp at hmem2
    | some m =>
      rw [latest_data_eq_filter hm] at hmem2
      have h2 := (List.mem_filter.mp hmem2).2
      simp only [beq_iff_eq] at h2
      rw [h2]
  · have hs : (List.insertionSort stressDescRel (latest_data tbl)).Sorted stressDescRel :=
      List.sorted_insertionSort stressDescRel (latest_data tbl)
    exact List.Pairwise.sublist (List.take_sublist _ _) hs

/-- C6: whatever the input value (of either sign) and whatever Laplace noise
sample was drawn, the noise injector output `max(0, value + noise)` is
never negative. -/
theorem apply_dp_noise_nonneg (value noise : ℚ) :
    0 ≤ apply_dp_noise value noise := by
  simp [apply_dp_noise]

/-- In a month-sorted list, the month of every row is bounded by the month of
the last row. -/
theorem sorted_month_le_getLast :
    ∀ (l : List MonthlyRecord), l.Sorted monthAscRel →
      ∀ r, l.getLast? = some r → ∀ x ∈ l, x.month ≤ r.month := by
  intro l
  induction l with
  | nil => intro _ r hr; simp at hr
  | cons a t ih =>
    intro hs r hr x hx
    cases t with
    | nil =>
      simp only [List.getLast?_singleton, Option.some.injEq] at hr
      have hxa : x = a := by simpa using hx
      rw [hxa, hr]
    | cons b t' =>
      rw [List.getLast?_cons_cons] at hr
      rcases List.mem_cons.mp hx with rfl | hx'
      · have hrmem : r ∈ b :: t' := List.mem_of_getLast?_eq_some hr
        exact (List.pairwise_cons.mp hs).1 r hrmem
      · exact ih (List.Pairwise.of_cons hs) r hr x hx'

/-- C5: if the selected state/district pair matches no row, the last-row
access of the selector is undefined (`none`, a raise in the source); and whenever
the state comes from the states dropdown and the district from the districts
dropdown of that state, the filtered set is non-empty and the last row after the
ascending month sort exists and carries the most recent month of the pair. -/
theorem location_selector_spec (tbl : List MonthlyRecord) (s d : String) :
    (tbl.filter (fun r => r.state == s && r.district == d) = [] →
      latest tbl s d = none) ∧
    (s ∈ states tbl → d ∈ districts tbl s →
      district_data tbl s d ≠ [] ∧
      ∃ r, latest tbl s d = some r ∧
        ∀ x ∈ district_data tbl s d, x.month ≤ r.month) := by
  constructor
  · intro hempty
    unfold latest district_data
    rw [hempty]
    rfl
  · intro _ hd
    have hd' : d ∈ ((tbl.filter (fun r => r.state == s)).map (·.district)).dedup :=
      (List.mem_insertionSort _).mp hd
    rw [List.mem_dedup] at hd'
    rcases List.mem_map.mp hd' with ⟨r0, hr0mem, hr0d⟩
    have hr0 := List.mem_filter.mp hr0mem
    have hr0state : r0.state = s := by simpa using hr0.2
    have hmemfilter : r0 ∈ tbl.filter (fun r => r.state == s && r.district == d) := by
      rw [List.mem_filter]
      refine ⟨hr0.1, ?_⟩
      simp [hr0state, hr0d]
    have hne : district_data tbl s d ≠ [] := by
      unfold district_data
      intro hnil
      have hmem : r0 ∈ List.insertionSort monthAscRel
          (tbl.filter (fun r => r.state == s && r.district == d)) :=
        (List.mem_insertionSort _).mpr hmemfilter
      rw [hnil] at hmem
      simp at hmem
    refine ⟨hne, ?_⟩
    have hsome : (district_data tbl s d).getLast?.isSome :=
      List.getLast?_isSome.mpr hne
    rcases Option.isSome_iff_exists.mp hsome with ⟨r, hr⟩
    exact ⟨r, hr, sorted_month_le_getLast _
      (List.sorted_insertionSort monthAscRel _) r hr⟩

/-- Witness for C5 on the sample table: "Telangana" is an offered state,
"Hyderabad" one of its offered districts, and the selector then succeeds. -/
theorem location_selector_spec_witness :
    district_data exTbl "Telangana" "Hyderabad" ≠ [] ∧
    ∃ r, latest exTbl "Telangana" "Hyderabad" = some r ∧
      ∀ x ∈ district_data exTbl "Telangana" "Hyderabad", x.month ≤ r.month :=
  (location_selector_spec exTbl "Telangana" "Hyderabad").2
    (by rw [states]; exact (List.mem_insertionSort _).mpr (by simp [exTbl]))
    (by rw [districts]; exact (List.mem_insertionSort _).mpr (by simp [exTbl]))

/-- C7: with no matching forecast rows the placeholder is shown, the
predicted value stays absent and no recommendation is produced; with
matching rows the predicted value is the `predicted_update_total` of the last
matching row and the recommendation is computed from it. -/
theorem forecast_handling_spec (fdf : List ForecastRecord) (s d : String) :
    (forecast_data fdf s d = [] →
      forecast_placeholder fdf s d = true ∧
      predicted_value fdf s d = none ∧
      recommendation_output fdf s d = none) ∧
    (∀ r, (forecast_data fdf s d).getLast? = some r →
      forecast_placeholder fdf s d = false ∧
      predicted_value fdf s d = some r.predicted_update_total ∧
      recommendation_output fdf s d = some (recommend_resources r.predicted_update_total)) := by
  constructor
  · intro h
    have h2 : predicted_value fdf s d = none := by
      unfold predicted_value
      rw [h]
      rfl
    refine ⟨?_, h2, ?_⟩
    · unfold forecast_placeholder
      rw [h]
      rfl
    · unfold recommendation_output
      rw [h2]
      rfl
  · intro r hr
    have hne : forecast_data fdf s d ≠ [] := by
      intro hnil
      rw [hnil] at hr
      simp at hr
    have h2 : predicted_value fdf s d = some r.predicted_update_total := by
      unfold predicted_value
      rw [hr]
      rfl
    refine ⟨?_, h2, ?_⟩
    · unfold forecast_placeholder
      exact List.isEmpty_eq_false.mpr hne
    · unfold recommendation_output
      rw [h2]
      rfl

/-- Witness for C7: the empty forecast table on one side, the one-row sample
forecast on the other. -/
theorem forecast_handling_spec_witness :
    (forecast_placeholder ([] : List ForecastRecord) "Telangana" "Hyderabad" = true ∧
     predicted_value ([] : List ForecastRecord) "Telangana" "Hyderabad" = none ∧
     recommendation_output ([] : List ForecastRecord) "Telangana" "Hyderabad" = none) ∧
    (forecast_placeholder exFdf "Telangana" "Hyderabad" = false ∧
     predicted_value exFdf "Telangana" "Hyderabad" = some exRec.predicted_update_total ∧
     recommendation_output exFdf "Telangana" "Hyderabad" =
       some (recommend_resources exRec.predicted_update_total)) :=
  ⟨(forecast_handling_spec [] "Telangana" "Hyderabad").1 rfl,
   (forecast_handling_spec exFdf "Telangana" "Hyderabad").2 exRec rfl⟩

/-- C8: the district dropdown offers exactly the distinct districts of rows
whose state is the selected one. -/
theorem districts_spec (tbl : List MonthlyRecord) (s d : String) :
    d ∈ districts tbl s ↔ ∃ r, r ∈ tbl ∧ r.state = s ∧ r.district = d := by
  unfold districts
  rw [List.mem_insertionSort, List.mem_dedup]
  simp only [List.mem_map, List.mem_filter, beq_iff_eq]
  constructor
  · rintro ⟨r, ⟨hrt, hrs⟩, hrd⟩
    exact ⟨r, hrt, hrs, hrd⟩
  · rintro ⟨r, hrt, hrs, hrd⟩
    exact ⟨r, ⟨hrt, hrs⟩, hrd⟩

/-- C9: the flag pass and the top-risk ranking are deterministic functions of
the loaded table: identical table contents give an identical flagged-row
count and an identical top-20 ranking. -/
theorem pipeline_deterministic (t1 t2 : List MonthlyRecord) (h : t1 = t2) :
    dashboard_summary t1 = dashboard_summary t2 ∧
    dq_count t1 = dq_count t2 ∧
    top_stress (flag_table t1) = top_stress (flag_table t2) := by
  subst h
  exact ⟨rfl, rfl, rfl⟩

/-- Witness for C9 on the sample table. -/
theorem pipeline_deterministic_witness :
    dashboard_summary exTbl = dashboard_summary exTbl ∧
    dq_count exTbl = dq_count exTbl ∧
    top_stress (flag_table exTbl) = top_stress (flag_table exTbl) :=
  pipeline_deterministic exTbl exTbl rfl

/-- C10: when the latest matching prediction is exactly 0 the what-if panel
shows nothing (the Python truthiness gate treats 0 like an absent forecast)
while the recommendation panel, gated only on presence, still outputs
(0, 0, 0); for a strictly positive prediction both panels produce output. -/
theorem zero_forecast_gating_spec (fdf : List ForecastRecord) (s d : String)
    (extra_staff extra_devices extra_units : Nat) :
    (predicted_value fdf s d = some 0 →
      scenario_output fdf s d extra_staff extra_devices extra_units = none ∧
      recommendation_output fdf s d = some (0, 0, 0)) ∧
    (∀ p : ℚ, 0 < p → predicted_value fdf s d = some p →
      scenario_output fdf s d extra_staff extra_devices extra_units =
        some (new_load p extra_staff extra_devices extra_units) ∧
      recommendation_output fdf s d = some (recommend_resources p)) := by
  constructor
  · intro h
    constructor
    · unfold scenario_output
      rw [h]
      simp
    · unfold recommendation_output
      rw [h]
      simp [recommend_resources]
  · intro p hp h
    constructor
    · unfold scenario_output
      rw [h]
      simp [ne_of_gt hp]
    · unfold recommendation_output
      rw [h]
      rfl

/-- Witness for C10: the zero-prediction sample on one side, the positive
sample on the other. -/
theorem zero_forecast_gating_witness :
    (scenario_output exFdf0 "Telangana" "Hyderabad" 1 2 3 = none ∧
     recommendation_output exFdf0 "Telangana" "Hyderabad" = some (0, 0, 0)) ∧
    (scenario_output exFdf "Telangana" "Hyderabad" 1 2 3 =
       some (new_load 500 1 2 3) ∧
     recommendation_output exFdf "Telangana" "Hyderabad" =
       some (recommend_resources 500)) :=
  ⟨(zero_forecast_gating_spec exFdf0 "Telangana" "Hyderabad" 1 2 3).1 rfl,
   (zero_forecast_gating_spec exFdf "Telangana" "Hyderabad" 1 2 3).2 500 (by norm_num) rfl⟩

end AadhaarPulse
